import Mathlib

/-!
Shallow embedding of the four NTP-clock firmware sketches
(ESP8266_HW_630, ESP01_OLED_V2, OLED13_NTP_V1, ESP32_OLED_V1).

C strings are modelled as `List Char`: the characters strictly before the
NUL terminator.  Raw buffers are modelled by their character contents, and
`writeAt` models a byte write at an offset inside a larger allocation,
padding with a junk byte when the write starts past the current content
(as `memmove` into uninitialised malloc memory would).  Machine `uint32_t`
timer arithmetic (`millis() - last`) is modelled by `elapsed32`.
-/

/-- Junk byte standing for uninitialised malloc memory between the old
string end and a write offset; every theorem below is independent of it. -/
def padc : Char := 'x'

/-- Model of a raw memory write (the destination view of `memcpy` and
`memmove`): overwrite `data.length` bytes of `buf` starting at `off`. -/
def writeAt (buf : List Char) (off : Nat) (data : List Char) : List Char :=
  buf.take off ++ List.replicate (off - buf.length) padc ++ data ++
    buf.drop (off + data.length)

/-- Model of C `strstr`: the index of the first occurrence of `t` in `h`
(`some 0` for the empty needle, exactly as in C). -/
def strstr : List Char → List Char → Option Nat
  | [], t => if t.isPrefixOf ([] : List Char) then some 0 else none
  | c :: h, t =>
      if t.isPrefixOf (c :: h) then some 0
      else Option.map (· + 1) (strstr h t)

/-- A successful `isPrefixOf` test decomposes the larger list. -/
theorem isPrefixOf_decomp :
    ∀ (t l : List Char), t.isPrefixOf l = true →
      t.length ≤ l.length ∧ l = t ++ l.drop t.length := by
  intro t
  induction t with
  | nil => intro l _; simp
  | cons a t ih =>
    intro l h
    cases l with
    | nil => simp [List.isPrefixOf] at h
    | cons b l2 =>
      simp only [List.isPrefixOf, Bool.and_eq_true, beq_iff_eq] at h
      obtain ⟨rfl, h2⟩ := h
      obtain ⟨h3, h4⟩ := ih l2 h2
      refine ⟨by simpa using Nat.succ_le_succ h3, ?_⟩
      simp only [List.length_cons, List.drop_succ_cons, List.cons_append]
      exact congrArg (a :: ·) h4

/-- A `strstr` hit is a genuine occurrence, and it is the first one. -/
theorem strstr_some_spec :
    ∀ (h t : List Char) (pos : Nat), strstr h t = some pos →
      pos ≤ h.length ∧ t.isPrefixOf (h.drop pos) = true ∧
        ∀ j, j < pos → t.isPrefixOf (h.drop j) = false := by
  intro h
  induction h with
  | nil =>
    intro t pos hs
    by_cases hp : t.isPrefixOf ([] : List Char) = true
    · have hp0 : pos = 0 := by
        simp [strstr, hp] at hs
        omega
      subst hp0
      exact ⟨Nat.le_refl 0, by simpa using hp,
        fun j hj => absurd hj (Nat.not_lt_zero j)⟩
    · simp [strstr, hp] at hs
  | cons c h2 ih =>
    intro t pos hs
    by_cases hp : t.isPrefixOf (c :: h2) = true
    · have hp0 : pos = 0 := by
        simp [strstr, hp] at hs
        omega
      subst hp0
      exact ⟨Nat.zero_le _, by simpa using hp,
        fun j hj => absurd hj (Nat.not_lt_zero j)⟩
    · have hp' : t.isPrefixOf (c :: h2) = false := by
        cases hb : t.isPrefixOf (c :: h2)
        · rfl
        · exact absurd hb hp
      rw [strstr, if_neg hp] at hs
      cases hs2 : strstr h2 t with
      | none => rw [hs2] at hs; simp at hs
      | some p2 =>
        rw [hs2] at hs
        simp at hs
        obtain ⟨hle, hpre, hmin⟩ := ih t p2 hs2
        subst hs
        refine ⟨by simpa using Nat.succ_le_succ hle, ?_, ?_⟩
        · simpa [List.drop_succ_cons] using hpre
        · intro j hj
          cases j with
          | zero => simpa using hp'
          | succ j2 =>
            have hj2 : j2 < p2 := Nat.lt_of_succ_lt_succ hj
            simpa [List.drop_succ_cons] using hmin j2 hj2

/-- A `strstr` miss means the needle occurs nowhere. -/
theorem strstr_none_spec :
    ∀ (h t : List Char), strstr h t = none →
      ∀ j, t.isPrefixOf (h.drop j) = false := by
  intro h
  induction h with
  | nil =>
    intro t hs j
    by_cases hp : t.isPrefixOf ([] : List Char) = true
    · simp [strstr, hp] at hs
    · have : t.isPrefixOf ([] : List Char) = false := by
        cases hb : t.isPrefixOf ([] : List Char)
        · rfl
        · exact absurd hb hp
      simpa [List.drop_nil] using this
  | cons c h2 ih =>
    intro t hs j
    by_cases hp : t.isPrefixOf (c :: h2) = true
    · simp [strstr, hp] at hs
    · have hp' : t.isPrefixOf (c :: h2) = false := by
        cases hb : t.isPrefixOf (c :: h2)
        · rfl
        · exact absurd hb hp
      have hs2 : strstr h2 t = none := by
        cases hh : strstr h2 t with
        | none => rfl
        | some p2 => rw [strstr, if_neg hp, hh] at hs; simp at hs
      cases j with
      | zero => simpa using hp'
      | succ j2 => simpa [List.drop_succ_cons] using ih t hs2 j2

/-- The in-place template substitution exactly as `handleSettings` writes it
(`replaceTag` in the ESP8266/ESP01 sketches, `rep` in OLED13): find the tag
with `strstr`; if absent return; otherwise `memmove` the tail together with
its NUL so that it follows the value, then `memcpy` the value over the hole.
The result is the buffer content up to the moved NUL terminator. -/
def replaceTag (html tag val : List Char) : List Char :=
  match strstr html tag with
  | none => html
  | some pos =>
    let tailL := html.drop (pos + tag.length)
    let h1 := writeAt html (pos + val.length) tailL
    (writeAt h1 pos val).take (pos + val.length + tailL.length)

/-- The substitution as the spec sentence words it: the text before the
first occurrence of the tag, then the value, then the text that previously
followed that occurrence; the buffer unchanged when the tag is absent. -/
def replaceTagSpec (html tag val : List Char) : List Char :=
  match strstr html tag with
  | none => html
  | some pos => html.take pos ++ val ++ html.drop (pos + tag.length)

/-- Key computation: the `memmove`-then-`memcpy` pair, truncated at the
moved NUL, rebuilds prefix ++ value ++ tail. -/
theorem writeAt_writeAt_take (html tailL val : List Char) (pos : Nat)
    (hpos : pos ≤ html.length) :
    (writeAt (writeAt html (pos + val.length) tailL) pos val).take
        (pos + val.length + tailL.length) =
      html.take pos ++ val ++ tailL := by
  set L := html.length with hL
  set vl := val.length with hvl
  set A := html.take (pos + vl) with hA
  set B := List.replicate (pos + vl - L) padc with hB
  set D := html.drop (pos + vl + tailL.length) with hD
  have hABlen : (A ++ B).length = pos + vl := by
    rw [hA, hB]
    simp only [List.length_append, List.length_take, List.length_replicate]
    omega
  have hh1 : writeAt html (pos + vl) tailL = (A ++ B) ++ (tailL ++ D) := by
    rw [writeAt]
    simp only [List.append_assoc]
  have hh1len : pos ≤ ((A ++ B) ++ (tailL ++ D)).length := by
    rw [List.length_append, hABlen]
    omega
  have hstep1 : ((A ++ B) ++ (tailL ++ D)).take pos = html.take pos := by
    rw [List.take_append_eq_append_take, List.take_append_eq_append_take]
    have hb0 : pos - A.length = 0 := by
      rw [hA, List.length_take]
      omega
    have hab0 : pos - (A ++ B).length = 0 := by omega
    rw [hab0, List.take_zero, List.append_nil, hb0, List.take_zero,
      List.append_nil, hA, List.take_take]
    congr 1
    omega
  have hstep2 : ((A ++ B) ++ (tailL ++ D)).drop (pos + vl) = tailL ++ D := by
    rw [List.drop_append_eq_append_drop]
    have h1 : (A ++ B).drop (pos + vl) = [] :=
      List.drop_eq_nil_of_le (by omega)
    have h2 : pos + vl - (A ++ B).length = 0 := by omega
    rw [h1, h2, List.drop_zero, List.nil_append]
  have hmain : writeAt ((A ++ B) ++ (tailL ++ D)) pos val =
      html.take pos ++ (val ++ (tailL ++ D)) := by
    rw [writeAt]
    have hrep : pos - ((A ++ B) ++ (tailL ++ D)).length = 0 := by omega
    rw [hrep, List.replicate_zero, hstep1, hstep2]
    simp only [List.append_assoc, List.nil_append]
  rw [hh1, hmain]
  have hlenpos : (html.take pos).length = pos := by
    rw [List.length_take]
    omega
  have e3 : (tailL ++ D).take tailL.length = tailL := by
    rw [List.take_append_eq_append_take, Nat.sub_self, List.take_zero,
      List.append_nil, List.take_length]
  have e2 : (val ++ (tailL ++ D)).take (vl + tailL.length) =
      val ++ tailL := by
    have ha : val.take (vl + tailL.length) = val :=
      List.take_of_length_le (by omega)
    have hb : (tailL ++ D).take (vl + tailL.length - val.length) = tailL := by
      have hidx : vl + tailL.length - val.length = tailL.length := by omega
      rw [hidx, e3]
    rw [List.take_append_eq_append_take, ha, hb]
  have e1 : (List.take pos html ++ (val ++ (tailL ++ D))).take
      (pos + vl + tailL.length) = List.take pos html ++ (val ++ tailL) := by
    have ha : (List.take pos html).take (pos + vl + tailL.length) =
        List.take pos html := List.take_of_length_le (by omega)
    have hb : (val ++ (tailL ++ D)).take
        (pos + vl + tailL.length - (List.take pos html).length) =
        val ++ tailL := by
      have hidx : pos + vl + tailL.length - (List.take pos html).length =
          vl + tailL.length := by omega
      rw [hidx, e2]
    rw [List.take_append_eq_append_take, ha, hb]
  rw [e1, ← List.append_assoc]

/-- The buffer-surgery implementation agrees with the take/append/drop
description everywhere. -/
theorem replaceTag_eq_spec (html tag val : List Char) :
    replaceTag html tag val = replaceTagSpec html tag val := by
  rw [replaceTag, replaceTagSpec]
  cases hs : strstr html tag with
  | none => rfl
  | some pos =>
    obtain ⟨hposle, hpre, -⟩ := strstr_some_spec html tag pos hs
    simpa using writeAt_writeAt_take html (html.drop (pos + tag.length))
      val pos hposle

/-- `strstr` hits exactly the minimal occurrence index. -/
theorem strstr_eq_some_iff (h t : List Char) (pos : Nat) :
    strstr h t = some pos ↔
      (t.isPrefixOf (h.drop pos) = true ∧
        ∀ j, j < pos → t.isPrefixOf (h.drop j) = false) := by
  constructor
  · intro hs
    obtain ⟨-, h1, h2⟩ := strstr_some_spec h t pos hs
    exact ⟨h1, h2⟩
  · rintro ⟨hocc, hmin⟩
    cases hs : strstr h t with
    | none => exact absurd (strstr_none_spec h t hs pos) (by simp [hocc])
    | some p =>
      obtain ⟨-, hp1, hp2⟩ := strstr_some_spec h t p hs
      rcases Nat.lt_trichotomy p pos with hlt | heq | hgt
      · exact absurd hp1 (by simp [hmin p hlt])
      · rw [heq]
      · exact absurd hocc (by simp [hp2 pos hgt])

/-- One substitution grows the buffer by at most the value/tag length
difference. -/
theorem replaceTag_length (h t v : List Char) :
    (replaceTag h t v).length ≤ h.length + (v.length - t.length) := by
  rw [replaceTag_eq_spec, replaceTagSpec]
  cases hs : strstr h t with
  | none => simp
  | some pos =>
    obtain ⟨hp, hpre, -⟩ := strstr_some_spec h t pos hs
    have hlen := (isPrefixOf_decomp t (h.drop pos) hpre).1
    rw [List.length_drop] at hlen
    simp only [List.length_append, List.length_take, List.length_drop]
    omega

/-- The chain of `replaceTag` calls performed by `handleSettings`, in
source order. -/
def applyTags (page : List Char) (subs : List (List Char × List Char)) :
    List Char :=
  subs.foldl (fun acc tv => replaceTag acc tv.1 tv.2) page

/-- Worst-case total growth of a substitution chain. -/
def gainBound (subs : List (List Char × List Char)) : Nat :=
  (subs.map (fun tv => tv.2.length - tv.1.length)).sum

theorem applyTags_length :
    ∀ (subs : List (List Char × List Char)) (page : List Char),
      (applyTags page subs).length ≤ page.length + gainBound subs := by
  intro subs
  induction subs with
  | nil => intro page; simp [applyTags, gainBound]
  | cons tv rest ih =>
    intro page
    have h1 := replaceTag_length page tv.1 tv.2
    have h2 := ih (replaceTag page tv.1 tv.2)
    simp only [applyTags, List.foldl_cons] at h2 ⊢
    simp only [gainBound, List.map_cons, List.sum_cons] at h2 ⊢
    omega

theorem gainBound_append (a b : List (List Char × List Char)) :
    gainBound (a ++ b) = gainBound a + gainBound b := by
  simp [gainBound]

theorem gainBound_take (subs : List (List Char × List Char)) (k : Nat) :
    gainBound (subs.take k) ≤ gainBound subs := by
  conv_rhs => rw [← List.take_append_drop k subs]
  rw [gainBound_append]
  exact Nat.le_add_right _ _

/-- Persisted settings of the ESP8266_HW_630 sketch (struct DevConfig). -/
structure Cfg8266 where
  magic : Nat
  ssid : List Char
  pass : List Char
  tzInfo : List Char
deriving DecidableEq

/-- Persisted settings of the ESP01_OLED_V2 sketch (struct DevConfig). -/
structure Cfg01 where
  magic : Nat
  ssid : List Char
  pass : List Char
  mqttHost : List Char
  mqttPort : Nat
  mqttUser : List Char
  mqttPass : List Char
  mqttTopic : List Char
  tzInfo : List Char
deriving DecidableEq

/-- Persisted settings of the OLED13_NTP_V1 sketch (struct DevConfig). -/
structure Cfg13 where
  magic : Nat
  ssid : List Char
  pass : List Char
  tz : List Char
deriving DecidableEq

/-- Persisted settings of the ESP32_OLED_V1 sketch (struct DevConfig). -/
structure Cfg32 where
  magic : Nat
  ssid : List Char
  pass : List Char
  tzInfo : List Char
  mqttServer : List Char
  mqttPort : Nat
  mqttUser : List Char
  mqttPass : List Char
  mqttTopic : List Char
  ledBlink : Nat
deriving DecidableEq

/-- Substitutions performed by `handleSettings` in ESP8266_HW_630. -/
def subs8266 (c : Cfg8266) : List (List Char × List Char) :=
  [("{{SSID}}".toList, c.ssid), ("{{PASS}}".toList, c.pass),
   ("{{TZ}}".toList, c.tzInfo)]

/-- Substitutions performed by `handleSettings` in ESP01_OLED_V2; `portStr`
is the `snprintf` rendering of `mqttPort` into a `char[6]` buffer. -/
def subs01 (c : Cfg01) (portStr : List Char) :
    List (List Char × List Char) :=
  [("{{SSID}}".toList, c.ssid), ("{{PASS}}".toList, c.pass),
   ("{{TZ}}".toList, c.tzInfo), ("{{MQTT_HOST}}".toList, c.mqttHost),
   ("{{MQTT_PORT}}".toList, portStr), ("{{MQTT_USER}}".toList, c.mqttUser),
   ("{{MQTT_PASS}}".toList, c.mqttPass),
   ("{{MQTT_TOPIC}}".toList, c.mqttTopic)]

/-- Claim C1: `replaceTag`/`rep` on a NUL-terminated buffer replaces the
first occurrence of the tag by the value, keeping the preceding text and
shifting the following text in place, and leaves the buffer unchanged when
the tag does not occur; `strstr` locates exactly the first occurrence. -/
theorem c1_replaceTag_subst (html tag val : List Char) :
    replaceTag html tag val = replaceTagSpec html tag val ∧
    (strstr html tag = none ↔
      ∀ j, tag.isPrefixOf (html.drop j) = false) ∧
    (∀ pos, strstr html tag = some pos ↔
      (tag.isPrefixOf (html.drop pos) = true ∧
        ∀ j, j < pos → tag.isPrefixOf (html.drop j) = false)) := by
  refine ⟨replaceTag_eq_spec html tag val, ⟨?_, ?_⟩,
    fun pos => strstr_eq_some_iff html tag pos⟩
  · exact fun hs j => strstr_none_spec html tag hs j
  · intro hall
    cases hs : strstr html tag with
    | none => rfl
    | some p =>
      exact absurd (strstr_some_spec html tag p hs).2.1 (by simp [hall p])

/-- Witness for C1 at a concrete page, tag and value. -/
theorem c1_replaceTag_subst_witness :
    replaceTag "ab{{TZ}}cd".toList "{{TZ}}".toList "ICT-7".toList =
      replaceTagSpec "ab{{TZ}}cd".toList "{{TZ}}".toList "ICT-7".toList :=
  (c1_replaceTag_subst "ab{{TZ}}cd".toList "{{TZ}}".toList
    "ICT-7".toList).1

/-- Claim C2: with every config string within its declared capacity, the
whole `handleSettings` substitution chain (and every prefix of it) keeps
the buffer, NUL included, within the malloc slack: 200 spare bytes in
ESP8266_HW_630, 300 in ESP01_OLED_V2. -/
theorem c2_no_overflow (c8 : Cfg8266) (c1 : Cfg01) (portStr : List Char)
    (h1 : c8.ssid.length ≤ 32) (h2 : c8.pass.length ≤ 64)
    (h3 : c8.tzInfo.length ≤ 39)
    (h4 : c1.ssid.length ≤ 32) (h5 : c1.pass.length ≤ 64)
    (h6 : c1.tzInfo.length ≤ 39) (h7 : c1.mqttHost.length ≤ 64)
    (h8 : portStr.length ≤ 5) (h9 : c1.mqttUser.length ≤ 32)
    (h10 : c1.mqttPass.length ≤ 64) (h11 : c1.mqttTopic.length ≤ 64) :
    (∀ (page : List Char) (k : Nat),
      (applyTags page ((subs8266 c8).take k)).length + 1 ≤
        page.length + 200) ∧
    (∀ (page : List Char) (k : Nat),
      (applyTags page ((subs01 c1 portStr).take k)).length + 1 ≤
        page.length + 300) := by
  have t1 : ("{{SSID}}".toList).length = 8 := rfl
  have t2 : ("{{PASS}}".toList).length = 8 := rfl
  have t3 : ("{{TZ}}".toList).length = 6 := rfl
  have t4 : ("{{MQTT_HOST}}".toList).length = 13 := rfl
  have t5 : ("{{MQTT_PORT}}".toList).length = 13 := rfl
  have t6 : ("{{MQTT_USER}}".toList).length = 13 := rfl
  have t7 : ("{{MQTT_PASS}}".toList).length = 13 := rfl
  have t8 : ("{{MQTT_TOPIC}}".toList).length = 14 := rfl
  have hg8 : gainBound (subs8266 c8) ≤ 113 := by
    simp only [gainBound, subs8266, List.map_cons, List.map_nil,
      List.sum_cons, List.sum_nil]
    omega
  have hg1 : gainBound (subs01 c1 portStr) ≤ 284 := by
    simp only [gainBound, subs01, List.map_cons, List.map_nil,
      List.sum_cons, List.sum_nil]
    omega
  constructor
  · intro page k
    have ha := applyTags_length ((subs8266 c8).take k) page
    have hb := gainBound_take (subs8266 c8) k
    omega
  · intro page k
    have ha := applyTags_length ((subs01 c1 portStr).take k) page
    have hb := gainBound_take (subs01 c1 portStr) k
    omega

/-- Witness for C2 at a concrete config and page. -/
theorem c2_no_overflow_witness :
    (applyTags "x{{SSID}}y".toList
      ((subs8266 ⟨0xBE, "net".toList, "pw".toList, "ICT-7".toList⟩).take
        3)).length + 1 ≤ ("x{{SSID}}y".toList).length + 200 :=
  (c2_no_overflow ⟨0xBE, "net".toList, "pw".toList, "ICT-7".toList⟩
    ⟨0xCD, [], [], [], 1883, [], [], [], []⟩ "1883".toList
    (by decide) (by decide) (by decide) (by decide) (by decide) (by decide)
    (by decide) (by decide) (by decide) (by decide) (by decide)).1
    "x{{SSID}}y".toList 3

/-- Defaults installed by `loadConfig` (ESP8266_HW_630) on magic mismatch:
`memset 0`, magic byte, timezone. -/
def default8266 : Cfg8266 :=
  { magic := 0xBE, ssid := [], pass := [], tzInfo := "ICT-7".toList }

/-- `loadConfig` of ESP8266_HW_630: keep the stored record when the magic
byte matches `0xBE`, otherwise install the defaults. -/
def loadConfig8266 (stored : Cfg8266) : Cfg8266 :=
  if stored.magic ≠ 0xBE then default8266 else stored

/-- Defaults installed by `loadConfig` (ESP01_OLED_V2) on magic mismatch:
`memset 0`, magic byte, MQTT port 1883, default topic, timezone. -/
def default01 : Cfg01 :=
  { magic := 0xCD, ssid := [], pass := [], mqttHost := [], mqttPort := 1883,
    mqttUser := [], mqttPass := [], mqttTopic := "ntp/esp01".toList,
    tzInfo := "ICT-7".toList }

/-- `loadConfig` of ESP01_OLED_V2 (magic `0xCD`). -/
def loadConfig01 (stored : Cfg01) : Cfg01 :=
  if stored.magic ≠ 0xCD then default01 else stored

/-- Defaults installed by `loadCfg` (OLED13_NTP_V1) on magic mismatch. -/
def default13 : Cfg13 :=
  { magic := 0xE7, ssid := [], pass := [], tz := "ICT-7".toList }

/-- `loadCfg` of OLED13_NTP_V1 (magic `0xE7`). -/
def loadConfig13 (stored : Cfg13) : Cfg13 :=
  if stored.magic ≠ 0xE7 then default13 else stored

/-- Defaults installed by `loadConfig` (ESP32_OLED_V1) on magic mismatch:
`memset 0`, magic byte, MQTT port 1883, `ledBlink = 1`, timezone, default
topic (the sketch then persists them with `saveConfig`). -/
def default32 : Cfg32 :=
  { magic := 0xE7, ssid := [], pass := [], tzInfo := "ICT-7".toList,
    mqttServer := [], mqttPort := 1883, mqttUser := [], mqttPass := [],
    mqttTopic := "esp32/oled/time".toList, ledBlink := 1 }

/-- `loadConfig` of ESP32_OLED_V1 (magic `0xE7`). -/
def loadConfig32 (stored : Cfg32) : Cfg32 :=
  if stored.magic ≠ 0xE7 then default32 else stored

/-- Modelled from the claim sentence of C3: the config the ESP32 variant
would hold after a magic mismatch if, as the claim words it, the entire
config were zeroed and ONLY the magic byte, the timezone, the MQTT port
and the default topic were installed — i.e. with `ledBlink` left zero. -/
def c3ClaimDefault32 : Cfg32 :=
  { magic := 0xE7, ssid := [], pass := [], tzInfo := "ICT-7".toList,
    mqttServer := [], mqttPort := 1883, mqttUser := [], mqttPass := [],
    mqttTopic := "esp32/oled/time".toList, ledBlink := 0 }

/-- A concrete stored record whose magic byte does not match. -/
def c3BadStored32 : Cfg32 :=
  { magic := 0, ssid := [], pass := [], tzInfo := [], mqttServer := [],
    mqttPort := 0, mqttUser := [], mqttPass := [], mqttTopic := [],
    ledBlink := 0 }

/-- Counterexample to C3 as stated: on the ESP32 variant a magic mismatch
does not leave every unlisted field zeroed — `ledBlink` is set to 1,
which the claim's list of installed defaults omits. -/
theorem c3_counterexample :
    loadConfig32 c3BadStored32 ≠ c3ClaimDefault32 ∧
      (loadConfig32 c3BadStored32).ledBlink = 1 ∧
      c3ClaimDefault32.ledBlink = 0 := by
  refine ⟨?_, by decide, by decide⟩
  decide

/-- Claim C3 (amended): on every boot each variant's `loadConfig` installs
the zeroed defaults exactly when the stored magic byte differs from the
variant's magic constant — with, on the ESP32 variant, the additional
default `ledBlink = 1` — and otherwise adopts the stored record unmodified
with no further validation. -/
theorem c3_load_config (s8 : Cfg8266) (s1 : Cfg01) (s13 : Cfg13)
    (s32 : Cfg32) :
    (s8.magic ≠ 0xBE → loadConfig8266 s8 = default8266) ∧
    (s8.magic = 0xBE → loadConfig8266 s8 = s8) ∧
    (s1.magic ≠ 0xCD → loadConfig01 s1 = default01) ∧
    (s1.magic = 0xCD → loadConfig01 s1 = s1) ∧
    (s13.magic ≠ 0xE7 → loadConfig13 s13 = default13) ∧
    (s13.magic = 0xE7 → loadConfig13 s13 = s13) ∧
    (s32.magic ≠ 0xE7 → loadConfig32 s32 = default32) ∧
    (s32.magic = 0xE7 → loadConfig32 s32 = s32) := by
  refine ⟨?_, ?_, ?_, ?_, ?_, ?_, ?_, ?_⟩ <;> intro hm <;>
    simp [loadConfig8266, loadConfig01, loadConfig13, loadConfig32, hm]

/-- Witness for C3 (amended) at concrete stored records. -/
theorem c3_load_config_witness :
    loadConfig8266 ⟨0, [], [], []⟩ = default8266 :=
  (c3_load_config ⟨0, [], [], []⟩ ⟨0xCD, [], [], [], 0, [], [], [], []⟩
    ⟨0xE7, [], [], []⟩ c3BadStored32).1 (by decide)

/-- The station-connect wait loop: `status k` is the
`WiFi.status() == WL_CONNECTED` test at the k-th poll (250 ms apart on the
ESP8266 sketches, 500 ms on the ESP32 one).  The loop leaves at the first
successful poll or when the budget is exhausted, and the caller re-checks
the status at the exit poll, which this function returns. -/
def waitConnected (status : Nat → Bool) : Nat → Nat → Bool
  | k, 0 => status k
  | k, fuel + 1 =>
      if status k then true else waitConnected status (k + 1) fuel

/-- `wifiConnect` of the ESP8266 sketches: give up at once on an empty
SSID, otherwise poll every 250 ms inside the 15000 ms budget
(poll indices 0..60). -/
def wifiConnect8266 (ssid : List Char) (status : Nat → Bool) : Bool :=
  if ssid = [] then false else waitConnected status 0 60

/-- `connectWiFi` of the ESP32 sketch: up to 30 half-second attempts
(poll indices 0..30). -/
def connectWiFi32 (status : Nat → Bool) : Bool :=
  waitConnected status 0 30

/-- `apMode` after `setup` of the ESP8266 sketches: `startSTA` stores
false when `wifiConnect` succeeded, else `startAP` stores true. -/
def bootApMode8266 (ssid : List Char) (status : Nat → Bool) : Bool :=
  !(wifiConnect8266 ssid status)

/-- The assignments `setup` makes to `apMode` after its initialiser:
exactly one, from `startSTA` or from `startAP`. -/
def bootApWrites8266 (ssid : List Char) (status : Nat → Bool) :
    List Bool :=
  if wifiConnect8266 ssid status then [false] else [true]

/-- `apMode` after `setup` of the ESP32 sketch:
`if (strlen(cfg.ssid) > 0 && connectWiFi()) apMode = false; else startAP()`. -/
def bootApMode32 (ssid : List Char) (status : Nat → Bool) : Bool :=
  !(decide (ssid ≠ []) && connectWiFi32 status)

/-- The assignments the ESP32 `setup` makes to `apMode`. -/
def bootApWrites32 (ssid : List Char) (status : Nat → Bool) : List Bool :=
  if decide (ssid ≠ []) && connectWiFi32 status then [false] else [true]

/-- The wait loop succeeds exactly when some poll inside the budget sees
the connected status. -/
theorem waitConnected_eq_true_iff (status : Nat → Bool) :
    ∀ (fuel s : Nat), waitConnected status s fuel = true ↔
      ∃ k, s ≤ k ∧ k ≤ s + fuel ∧ status k = true := by
  intro fuel
  induction fuel with
  | zero =>
    intro s
    simp only [waitConnected]
    constructor
    · intro h; exact ⟨s, Nat.le_refl s, by omega, h⟩
    · rintro ⟨k, h1, h2, h3⟩
      have hk : k = s := by omega
      rw [← hk]; exact h3
  | succ f ih =>
    intro s
    by_cases hs : status s = true
    · simp only [waitConnected, hs, if_true, true_iff]
      exact ⟨s, Nat.le_refl s, by omega, hs⟩
    · simp only [waitConnected, hs, if_false, Bool.false_eq_true,
        if_neg hs]
      rw [ih (s + 1)]
      constructor
      · rintro ⟨k, h1, h2, h3⟩
        exact ⟨k, by omega, by omega, h3⟩
      · rintro ⟨k, h1, h2, h3⟩
        refine ⟨k, ?_, by omega, h3⟩
        rcases Nat.lt_or_ge s k with h | h
        · omega
        · have hk : k = s := by omega
          rw [hk] at h3
          exact absurd h3 hs

/-- Claim C4: at boot, AP (setup) mode is entered exactly when the stored
SSID is empty or no poll within the budget (61 polls over 15 s on ESP8266,
31 polls over 30 half-second attempts on ESP32) sees `WL_CONNECTED`; and
`apMode` receives exactly one assignment, with that value. -/
theorem c4_boot_mode (ssid : List Char) (status : Nat → Bool) :
    (bootApMode8266 ssid status = true ↔
      (ssid = [] ∨ ∀ k, k ≤ 60 → status k = false)) ∧
    bootApWrites8266 ssid status = [bootApMode8266 ssid status] ∧
    (bootApMode32 ssid status = true ↔
      (ssid = [] ∨ ∀ k, k ≤ 30 → status k = false)) ∧
    bootApWrites32 ssid status = [bootApMode32 ssid status] := by
  have hw60 := waitConnected_eq_true_iff status 60 0
  have hw30 := waitConnected_eq_true_iff status 30 0
  refine ⟨?_, ?_, ?_, ?_⟩
  · by_cases hssid : ssid = []
    · simp [bootApMode8266, wifiConnect8266, hssid]
    · constructor
      · intro h
        right
        intro k hk
        cases hsk : status k
        · rfl
        · exfalso
          have hwt : waitConnected status 0 60 = true :=
            hw60.mpr ⟨k, Nat.zero_le k, by omega, hsk⟩
          simp [bootApMode8266, wifiConnect8266, if_neg hssid, hwt] at h
      · intro h
        rcases h with h | h
        · exact absurd h hssid
        · have hwf : waitConnected status 0 60 = false := by
            cases hwc : waitConnected status 0 60
            · rfl
            · exfalso
              obtain ⟨k, -, hk2, hk3⟩ := hw60.mp hwc
              have hf := h k (by omega)
              rw [hf] at hk3
              exact Bool.false_ne_true hk3
          simp [bootApMode8266, wifiConnect8266, if_neg hssid, hwf]
  · cases hw : wifiConnect8266 ssid status <;>
      simp [bootApWrites8266, bootApMode8266, hw]
  · by_cases hssid : ssid = []
    · simp [bootApMode32, hssid]
    · constructor
      · intro h
        right
        intro k hk
        cases hsk : status k
        · rfl
        · exfalso
          have hwt : waitConnected status 0 30 = true :=
            hw30.mpr ⟨k, Nat.zero_le k, by omega, hsk⟩
          simp [bootApMode32, connectWiFi32, hssid, hwt] at h
      · intro h
        rcases h with h | h
        · exact absurd h hssid
        · have hwf : waitConnected status 0 30 = false := by
            cases hwc : waitConnected status 0 30
            · rfl
            · exfalso
              obtain ⟨k, -, hk2, hk3⟩ := hw30.mp hwc
              have hf := h k (by omega)
              rw [hf] at hk3
              exact Bool.false_ne_true hk3
          simp [bootApMode32, connectWiFi32, hssid, hwf]
  · cases hw : decide (ssid ≠ []) && connectWiFi32 status <;>
      simp only [bootApWrites32, bootApMode32, hw] <;> rfl

/-- Witness for C4: empty SSID boots into AP mode. -/
theorem c4_boot_mode_witness :
    bootApMode8266 [] (fun _ => false) = true :=
  (c4_boot_mode [] (fun _ => false)).1.mpr (Or.inl rfl)

/-- `uint32_t` elapsed-time arithmetic `now - last` as the sketches compute
it with `millis()` values (both below `2^32`). -/
def elapsed32 (now last : Nat) : Nat :=
  (now + 2 ^ 32 - last) % 2 ^ 32

/-- The three screen layouts the claims distinguish. -/
inductive Layout where
  | setup
  | syncing
  | timeDate
deriving DecidableEq

/-- `oledUpdate` of ESP8266_HW_630 / ESP01_OLED_V2 / OLED13_NTP_V1 reduced
to its observable effect: the new `lastOledUpdate` and which layout (if
any) is drawn.  Within 500 ms of the previous redraw nothing happens;
otherwise an unsynced clock draws the setup screen in AP mode and the
syncing screen in station mode, and a synced clock draws time/date. -/
def oledUpdate8266 (now : Nat) (ap synced : Bool) (last : Nat) :
    Nat × Option Layout :=
  if elapsed32 now last < 500 then (last, none)
  else (now, some (if synced then Layout.timeDate
    else if ap then Layout.setup else Layout.syncing))

/-- `updateOLED` of ESP32_OLED_V1: state is (`lastOled`, `lastSec`);
`timeOk` is the `getLocalTime` result; after the 500 ms throttle the AP
screen, the waiting screen, or (when the second changed) the time screen
is drawn. -/
def updateOLED32 (now : Nat) (ap timeOk : Bool) (sec lastSec : Int)
    (last : Nat) : (Nat × Int) × Option Layout :=
  if elapsed32 now last < 500 then ((last, lastSec), none)
  else if ap then ((now, lastSec), some Layout.setup)
  else if !timeOk then ((now, lastSec), some Layout.syncing)
  else if sec = lastSec then ((now, lastSec), none)
  else ((now, sec), some Layout.timeDate)

/-- Claim C5: the renderer draws nothing within 500 ms of the previous
redraw, and each redraw picks exactly one layout from the device state:
setup in AP mode, syncing (waiting) before time sync, time/date once
synced — given the boot invariant that AP mode never becomes synced. -/
theorem c5_oled_render (now last : Nat) (ap synced timeOk : Bool)
    (sec lastSec : Int) (hreach : ap = true → synced = false) :
    (elapsed32 now last < 500 →
      oledUpdate8266 now ap synced last = (last, none) ∧
      updateOLED32 now ap timeOk sec lastSec last =
        ((last, lastSec), none)) ∧
    (500 ≤ elapsed32 now last →
      oledUpdate8266 now ap synced last =
        (now, some (if ap then Layout.setup
          else if synced then Layout.timeDate else Layout.syncing))) ∧
    (500 ≤ elapsed32 now last → ∀ l,
      (updateOLED32 now ap timeOk sec lastSec last).2 = some l →
      l = (if ap then Layout.setup
        else if timeOk then Layout.timeDate else Layout.syncing)) := by
  refine ⟨?_, ?_, ?_⟩
  · intro hlt
    constructor
    · simp [oledUpdate8266, hlt]
    · simp [updateOLED32, hlt]
  · intro hge
    have hnlt : ¬ elapsed32 now last < 500 := by omega
    cases hap : ap
    · simp [oledUpdate8266, hnlt]
    · have hsy := hreach hap
      simp [oledUpdate8266, hnlt, hsy]
  · intro hge l hl
    have hnlt : ¬ elapsed32 now last < 500 := by omega
    rw [updateOLED32, if_neg hnlt] at hl
    cases hap : ap
    · rw [hap] at hl
      simp only [Bool.false_eq_true, if_false] at hl
      cases hok : timeOk
      · rw [hok] at hl
        simp only [Bool.not_false, if_true, Option.some.injEq] at hl
        simp [hap, hok, ← hl]
      · rw [hok] at hl
        simp only [Bool.not_true, Bool.false_eq_true, if_false] at hl
        by_cases hsec : sec = lastSec
        · rw [if_pos hsec] at hl
          simp at hl
        · rw [if_neg hsec] at hl
          simp only [Option.some.injEq] at hl
          simp [hap, hok, ← hl]
    · rw [hap] at hl
      simp only [if_true, Option.some.injEq] at hl
      simp [hap, ← hl]

/-- Witness for C5: a call 100 ms after the previous redraw does nothing
on either renderer. -/
theorem c5_oled_render_witness :
    oledUpdate8266 100 false false 0 = (0, none) ∧
    updateOLED32 100 false false 0 (-1) 0 = ((0, (-1 : Int)), none) :=
  (c5_oled_render 100 0 false false false 0 (-1) (by decide)).1 (by decide)

/-- `mqttPublish` of ESP01_OLED_V2 reduced to whether a message goes out:
it returns early on an empty host, a disconnected client, or an unsynced
clock. -/
def mqttPublish01 (hostNE connected synced : Bool) : Bool :=
  hostNE && connected && synced

/-- The MQTT block at the end of `loop` in ESP01_OLED_V2: guarded by
station mode and a configured host; a publish attempt fires when more
than 60 s passed since `lastMqttPub` and the clock is synced, and
`lastMqttPub` is then reset.  Returns (published?, new `lastMqttPub`). -/
def loopMqtt01 (ap hostNE connected synced : Bool) (now lastPub : Nat) :
    Bool × Nat :=
  if !ap && hostNE then
    if decide (elapsed32 now lastPub > 60000) && synced then
      (mqttPublish01 hostNE connected synced, now)
    else (false, lastPub)
  else (false, lastPub)

/-- `mqttEnabled` of ESP32_OLED_V1 is set at boot, only in station mode
and only when an MQTT server is configured. -/
def mqttEnabled32 (ap serverNE : Bool) : Bool :=
  !ap && serverNE

/-- The publish block in the ESP32 `loop`: guarded by `mqttEnabled`, a
connected client and station mode; past 60 s it resets `lastMqtt` and
publishes when `getLocalTime` (`timeOk`) succeeds. -/
def loopMqtt32 (ap mqttEnabled connected timeOk : Bool)
    (now lastMqtt : Nat) : Bool × Nat :=
  if mqttEnabled && connected && !ap then
    if decide (elapsed32 now lastMqtt > 60000) then (timeOk, now)
    else (false, lastMqtt)
  else (false, lastMqtt)

/-- Claim C6: a telemetry publish happens exactly when the device is in
station mode with a configured MQTT host, a connected client, 60 s of
interval elapsed, and (ESP01) a synced clock / (ESP32) a readable local
time; on a publish the interval timer resets.  In particular no publish
ever occurs in AP mode or with an unconfigured host. -/
theorem c6_mqtt_publish (ap hostNE connected synced serverNE timeOk : Bool)
    (now lastPub lastM : Nat) :
    ((loopMqtt01 ap hostNE connected synced now lastPub).1 = true ↔
      (ap = false ∧ hostNE = true ∧ connected = true ∧ synced = true ∧
        elapsed32 now lastPub > 60000)) ∧
    ((loopMqtt01 ap hostNE connected synced now lastPub).1 = true →
      (loopMqtt01 ap hostNE connected synced now lastPub).2 = now) ∧
    ((loopMqtt32 ap (mqttEnabled32 ap serverNE) connected timeOk now
        lastM).1 = true ↔
      (ap = false ∧ serverNE = true ∧ connected = true ∧ timeOk = true ∧
        elapsed32 now lastM > 60000)) ∧
    ((loopMqtt32 ap (mqttEnabled32 ap serverNE) connected timeOk now
        lastM).1 = true →
      (loopMqtt32 ap (mqttEnabled32 ap serverNE) connected timeOk now
        lastM).2 = now) := by
  by_cases h1 : elapsed32 now lastPub > 60000 <;>
    by_cases h2 : elapsed32 now lastM > 60000 <;>
      cases ap <;> cases hostNE <;> cases connected <;> cases synced <;>
        cases serverNE <;> cases timeOk <;>
          simp [loopMqtt01, loopMqtt32, mqttPublish01, mqttEnabled32,
            h1, h2]

/-- Witness for C6: a publish fires in station mode with host configured,
client connected, clock synced, 70 s after the last publish. -/
theorem c6_mqtt_publish_witness :
    (loopMqtt01 false true true true 70000 0).1 = true :=
  (c6_mqtt_publish false true true true true true 70000 0 0).1.mpr
    ⟨rfl, rfl, rfl, rfl, by decide⟩

/-- An HTTP response as the not-found handlers produce it. -/
structure HttpResponse where
  code : Nat
  location : Option (List Char)
  body : List Char
deriving DecidableEq

/-- `handleNotFound` of the ESP8266 sketches (ESP8266_HW_630,
ESP01_OLED_V2, OLED13_NTP_V1): 302 to the portal root in AP mode, plain
404 otherwise. -/
def handleNotFound8266 (ap : Bool) : HttpResponse :=
  if ap then
    { code := 302, location := some "http://192.168.4.1/".toList,
      body := [] }
  else
    { code := 404, location := none, body := "Not Found".toList }

/-- The `onNotFound` lambda of ESP32_OLED_V1: 302 to the portal settings
page in AP mode, plain 404 otherwise. -/
def handleNotFound32 (ap : Bool) : HttpResponse :=
  if ap then
    { code := 302,
      location := some "http://192.168.4.1/settings".toList, body := [] }
  else
    { code := 404, location := none, body := "Not Found".toList }

/-- Claim C7: the not-found handler redirects (302) to the portal address
exactly in AP mode — `http://192.168.4.1/` on the ESP8266 variants,
`http://192.168.4.1/settings` on the ESP32 variant — and answers a plain
404 "Not Found" exactly in station mode. -/
theorem c7_not_found (ap : Bool) :
    ((handleNotFound8266 ap).code = 302 ∧
      (handleNotFound8266 ap).location =
        some "http://192.168.4.1/".toList ↔ ap = true) ∧
    ((handleNotFound8266 ap).code = 404 ∧
      (handleNotFound8266 ap).location = none ∧
      (handleNotFound8266 ap).body = "Not Found".toList ↔ ap = false) ∧
    ((handleNotFound32 ap).code = 302 ∧
      (handleNotFound32 ap).location =
        some "http://192.168.4.1/settings".toList ↔ ap = true) ∧
    ((handleNotFound32 ap).code = 404 ∧
      (handleNotFound32 ap).location = none ∧
      (handleNotFound32 ap).body = "Not Found".toList ↔ ap = false) := by
  cases ap <;> refine ⟨?_, ?_, ?_, ?_⟩ <;>
    simp [handleNotFound8266, handleNotFound32]

/-- Witness for C7: in AP mode the ESP8266 handler redirects. -/
theorem c7_not_found_witness :
    (handleNotFound8266 true).code = 302 ∧
      (handleNotFound8266 true).location =
        some "http://192.168.4.1/".toList :=
  (c7_not_found true).1.mpr rfl

/-- `mqttReconnect` of ESP01_OLED_V2 reduced to its observable effect:
(number of connect attempts made, new `lastMqttReconnect`).  Returns
without acting on an empty host, a connected client, or less than 10 s
since the last attempt; otherwise it stamps the time and attempts once. -/
def mqttReconnect01 (hostNE connected : Bool) (now lastTry : Nat) :
    Nat × Nat :=
  if !hostNE then (0, lastTry)
  else if connected then (0, lastTry)
  else if elapsed32 now lastTry < 10000 then (0, lastTry)
  else (1, now)

/-- `mqttReconnect` of ESP32_OLED_V1 (no host guard; `lastTry` is its
`static` local). -/
def mqttReconnect32 (connected : Bool) (now lastTry : Nat) : Nat × Nat :=
  if connected then (0, lastTry)
  else if elapsed32 now lastTry < 10000 then (0, lastTry)
  else (1, now)

/-- Any history of failed ESP01 reconnect calls (client never connected,
host configured), folded over the call times: accumulates total attempts
and the running `lastMqttReconnect`. -/
def reconnectRun01 (calls : List Nat) (last0 : Nat) : Nat × Nat :=
  calls.foldl
    (fun acc t =>
      let r := mqttReconnect01 true false t acc.2
      (acc.1 + r.1, r.2))
    (0, last0)

/-- Claim C8: MQTT reconnection is a fixed 10 s timer with no backoff:
the call is a no-op when already connected, when the ESP01 host is empty,
or within 10 s of the last attempt; otherwise it stamps the attempt time
and makes exactly one connect attempt — and after any number of failed
attempts the threshold is still the same 10 s. -/
theorem c8_mqtt_reconnect (hostNE connected : Bool) (now lastTry : Nat) :
    (hostNE = false →
      mqttReconnect01 hostNE connected now lastTry = (0, lastTry)) ∧
    (connected = true →
      mqttReconnect01 hostNE connected now lastTry = (0, lastTry) ∧
      mqttReconnect32 connected now lastTry = (0, lastTry)) ∧
    (elapsed32 now lastTry < 10000 →
      mqttReconnect01 hostNE connected now lastTry = (0, lastTry) ∧
      mqttReconnect32 connected now lastTry = (0, lastTry)) ∧
    (hostNE = true → connected = false → 10000 ≤ elapsed32 now lastTry →
      mqttReconnect01 hostNE connected now lastTry = (1, now) ∧
      mqttReconnect32 connected now lastTry = (1, now)) ∧
    (∀ (calls : List Nat) (last0 : Nat),
      10000 ≤ elapsed32 now (reconnectRun01 calls last0).2 →
      mqttReconnect01 true false now (reconnectRun01 calls last0).2 =
        (1, now)) := by
  refine ⟨?_, ?_, ?_, ?_, ?_⟩
  · intro h
    simp [mqttReconnect01, h]
  · intro h
    constructor <;> simp [mqttReconnect01, mqttReconnect32, h]
  · intro h
    cases connected <;> cases hostNE <;>
      simp [mqttReconnect01, mqttReconnect32, h]
  · intro h1 h2 h3
    have hnlt : ¬ elapsed32 now lastTry < 10000 := by omega
    constructor <;> simp [mqttReconnect01, mqttReconnect32, h1, h2, hnlt]
  · intro calls last0 h
    have hnlt : ¬ elapsed32 now (reconnectRun01 calls last0).2 < 10000 :=
      by omega
    simp [mqttReconnect01, hnlt]

/-- Witness for C8: a disconnected client with a configured host retries
after 10 s, including after a whole history of failed attempts. -/
theorem c8_mqtt_reconnect_witness :
    mqttReconnect01 true false 50000 (reconnectRun01 [12000] 0).2 =
      (1, 50000) :=
  (c8_mqtt_reconnect true false 50000 0).2.2.2.2 [12000] 0 (by decide)

/-- The NTP snapshot struct of ESP8266_HW_630 / ESP01_OLED_V2 (zeroed
static initialisation gives `ntpData0`). -/
structure NTPData where
  hour : Nat
  minute : Nat
  second : Nat
  day : Nat
  month : Nat
  year : Nat
  wday : Nat
  synced : Bool
deriving DecidableEq

/-- The zero-initialised boot value of `ntpData`. -/
def ntpData0 : NTPData :=
  { hour := 0, minute := 0, second := 0, day := 0, month := 0, year := 0,
    wday := 0, synced := false }

/-- The fields of the `struct tm` that `localtime` returns. -/
structure TmVal where
  hour : Nat
  minute : Nat
  second : Nat
  mday : Nat
  mon : Nat
  year : Nat
  wday : Nat

/-- `ntpUpdate` of ESP8266_HW_630: with the system clock (`now`) below
100000 s the whole snapshot is left untouched; otherwise every field is
refreshed from `localtime` and `synced` is set to true. -/
def ntpUpdate8266 (now : Nat) (lt : TmVal) (d : NTPData) : NTPData :=
  if now < 100000 then d
  else
    { hour := lt.hour, minute := lt.minute, second := lt.second,
      day := lt.mday, month := lt.mon + 1, year := lt.year + 1900,
      wday := lt.wday, synced := true }

/-- The NTP globals of OLED13_NTP_V1 (`ntpH` … `ntpSynced`), zeroed and
false at boot. -/
structure Ntp13 where
  h : Nat
  m : Nat
  s : Nat
  day : Nat
  mon : Nat
  year : Nat
  wday : Nat
  synced : Bool
deriving DecidableEq

/-- The boot value of the OLED13 NTP globals. -/
def ntp13Zero : Ntp13 :=
  { h := 0, m := 0, s := 0, day := 0, mon := 0, year := 0, wday := 0,
    synced := false }

/-- `ntpUpdate` of OLED13_NTP_V1, identical in logic to the ESP8266 one. -/
def ntpUpdate13 (now : Nat) (lt : TmVal) (d : Ntp13) : Ntp13 :=
  if now < 100000 then d
  else
    { h := lt.hour, m := lt.minute, s := lt.second, day := lt.mday,
      mon := lt.mon + 1, year := lt.year + 1900, wday := lt.wday,
      synced := true }

/-- The write `loop` makes to `ntpData` on one iteration of the ESP8266
sketch: `ntpUpdate` runs only in station mode. -/
def loopNtp8266 (ap : Bool) (now : Nat) (lt : TmVal) (d : NTPData) :
    NTPData :=
  if ap then d else ntpUpdate8266 now lt d

/-- Any number of `loop` iterations, each sampling a clock value and a
`localtime` result. -/
def runLoop8266 (ap : Bool) (steps : List (Nat × TmVal)) (d : NTPData) :
    NTPData :=
  steps.foldl (fun acc s => loopNtp8266 ap s.1 s.2 acc) d

/-- Claim C9: in the ESP8266 variants the `synced` flag is monotone: it
boots false, `ntpUpdate` leaves the whole snapshot untouched below the
100000 s clock threshold and otherwise only ever sets `synced` to true;
hence across any run of loop iterations it never falls back to false, and
a synced snapshot never renders the syncing layout again. -/
theorem c9_synced_monotone :
    ntpData0.synced = false ∧
    ntp13Zero.synced = false ∧
    (∀ (now : Nat) (lt : TmVal) (d : NTPData),
      now < 100000 → ntpUpdate8266 now lt d = d) ∧
    (∀ (now : Nat) (lt : TmVal) (d : NTPData),
      100000 ≤ now → (ntpUpdate8266 now lt d).synced = true) ∧
    (∀ (now : Nat) (lt : TmVal) (d : NTPData),
      d.synced = true → (ntpUpdate8266 now lt d).synced = true) ∧
    (∀ (now : Nat) (lt : TmVal) (d : Ntp13),
      now < 100000 → ntpUpdate13 now lt d = d) ∧
    (∀ (now : Nat) (lt : TmVal) (d : Ntp13),
      100000 ≤ now → (ntpUpdate13 now lt d).synced = true) ∧
    (∀ (now : Nat) (lt : TmVal) (d : Ntp13),
      d.synced = true → (ntpUpdate13 now lt d).synced = true) ∧
    (∀ (ap : Bool) (steps : List (Nat × TmVal)) (d : NTPData),
      d.synced = true → (runLoop8266 ap steps d).synced = true) ∧
    (∀ (now last : Nat) (ap : Bool) (d : NTPData) (l : Layout),
      d.synced = true → (oledUpdate8266 now ap d.synced last).2 = some l →
      l = Layout.timeDate) := by
  refine ⟨rfl, rfl, ?_, ?_, ?_, ?_, ?_, ?_, ?_, ?_⟩
  · intro now lt d h
    simp [ntpUpdate8266, h]
  · intro now lt d h
    have hn : ¬ now < 100000 := by omega
    simp [ntpUpdate8266, hn]
  · intro now lt d h
    by_cases hn : now < 100000 <;> simp [ntpUpdate8266, hn, h]
  · intro now lt d h
    simp [ntpUpdate13, h]
  · intro now lt d h
    have hn : ¬ now < 100000 := by omega
    simp [ntpUpdate13, hn]
  · intro now lt d h
    by_cases hn : now < 100000 <;> simp [ntpUpdate13, hn, h]
  · intro ap steps
    induction steps with
    | nil => intro d h; simpa [runLoop8266] using h
    | cons s rest ih =>
      intro d h
      have hstep : (loopNtp8266 ap s.1 s.2 d).synced = true := by
        by_cases hap : ap
        · simpa [loopNtp8266, hap] using h
        · by_cases hn : s.1 < 100000 <;>
            simp [loopNtp8266, hap, ntpUpdate8266, hn, h]
      simpa [runLoop8266, List.foldl_cons] using ih (loopNtp8266 ap s.1 s.2 d) hstep
  · intro now last ap d l h hl
    rw [h] at hl
    by_cases helt : elapsed32 now last < 500
    · simp [oledUpdate8266, helt] at hl
    · simp only [oledUpdate8266, if_neg helt, if_true,
        Option.some.injEq] at hl
      rw [← hl]

/-- Witness for C9: a below-threshold clock read leaves the snapshot
untouched. -/
theorem c9_synced_monotone_witness :
    ntpUpdate8266 99999 ⟨1, 2, 3, 4, 5, 6, 0⟩ ntpData0 = ntpData0 :=
  c9_synced_monotone.2.2.1 99999 ⟨1, 2, 3, 4, 5, 6, 0⟩ ntpData0
    (by decide)

/-- C `strlcpy` into a buffer of `size` bytes: keeps at most `size - 1`
characters plus the NUL. -/
def strlcpyL (src : List Char) (size : Nat) : List Char :=
  src.take (size - 1)

/-- `handlePortalSave` of ESP01_OLED_V2: copy the `ssid` and `pass` args
(when present) into the config, then `saveConfig` rewrites the magic byte
and persists; nothing else is touched. -/
def handlePortalSave01 (ssidArg passArg : Option (List Char))
    (c : Cfg01) : Cfg01 :=
  let c1 := match ssidArg with
    | some s => { c with ssid := strlcpyL s 33 }
    | none => c
  let c2 := match passArg with
    | some p => { c1 with pass := strlcpyL p 65 }
    | none => c1
  { c2 with magic := 0xCD }

/-- `handlePortalSave` of OLED13_NTP_V1 (via `saveCfg`, magic `0xE7`). -/
def handlePortalSave13 (ssidArg passArg : Option (List Char))
    (c : Cfg13) : Cfg13 :=
  let c1 := match ssidArg with
    | some s => { c with ssid := strlcpyL s 33 }
    | none => c
  let c2 := match passArg with
    | some p => { c1 with pass := strlcpyL p 65 }
    | none => c1
  { c2 with magic := 0xE7 }

/-- Claim C10: the captive-portal save handlers of ESP01 and OLED13 touch
only `ssid`, `pass` and the magic byte; the timezone and (ESP01) all five
MQTT settings keep their values, and the saved record reloads unmodified
after the reboot because its magic byte matches. -/
theorem c10_portal_save_frame (ssidArg passArg : Option (List Char))
    (c1 : Cfg01) (c13 : Cfg13) :
    (handlePortalSave01 ssidArg passArg c1).tzInfo = c1.tzInfo ∧
    (handlePortalSave01 ssidArg passArg c1).mqttHost = c1.mqttHost ∧
    (handlePortalSave01 ssidArg passArg c1).mqttPort = c1.mqttPort ∧
    (handlePortalSave01 ssidArg passArg c1).mqttUser = c1.mqttUser ∧
    (handlePortalSave01 ssidArg passArg c1).mqttPass = c1.mqttPass ∧
    (handlePortalSave01 ssidArg passArg c1).mqttTopic = c1.mqttTopic ∧
    loadConfig01 (handlePortalSave01 ssidArg passArg c1) =
      handlePortalSave01 ssidArg passArg c1 ∧
    (handlePortalSave13 ssidArg passArg c13).tz = c13.tz ∧
    loadConfig13 (handlePortalSave13 ssidArg passArg c13) =
      handlePortalSave13 ssidArg passArg c13 := by
  cases ssidArg <;> cases passArg <;>
    simp [handlePortalSave01, handlePortalSave13, loadConfig01,
      loadConfig13]

/-- Witness for C10: a concrete portal save leaves the MQTT topic as it
was. -/
theorem c10_portal_save_frame_witness :
    (handlePortalSave01 (some "newnet".toList) (some "newpw".toList)
      ⟨0xCD, [], [], "host".toList, 1883, [], [], "ntp/esp01".toList,
        "ICT-7".toList⟩).mqttTopic = "ntp/esp01".toList :=
  (c10_portal_save_frame (some "newnet".toList) (some "newpw".toList)
    ⟨0xCD, [], [], "host".toList, 1883, [], [], "ntp/esp01".toList,
      "ICT-7".toList⟩ ⟨0xE7, [], [], []⟩).2.2.2.2.2.1
